import Mathlib

/-!
Shallow embedding of the runtime provisioning and health-supervision engine
from `src-tauri/src/python_manager.rs` and `src-tauri/src/ollama.rs`.

External effects (filesystem probes, process spawns, HTTP requests) are
modelled by environment records whose fields carry the outcome each effectful
call would produce; the Rust control flow over those outcomes is translated
verbatim into Lean functions.
-/

/-- Mirrors the `PythonStatus` struct (python_manager.rs, lines 11-19). -/
structure PythonStatus where
  is_available : Bool
  python_path : Option String
  version : Option String
  source : String
  medical_libraries_available : Bool
  setup_required : Bool
deriving DecidableEq, Repr

instance {ε α : Type} [DecidableEq ε] [DecidableEq α] : DecidableEq (Except ε α) := fun x y =>
  match x, y with
  | .ok a, .ok b =>
    if h : a = b then .isTrue (by rw [h])
    else .isFalse (fun hc => h (Except.ok.inj hc))
  | .error a, .error b =>
    if h : a = b then .isTrue (by rw [h])
    else .isFalse (fun hc => h (Except.error.inj hc))
  | .ok _, .error _ => .isFalse (fun hc => Except.noConfusion hc)
  | .error _, .ok _ => .isFalse (fun hc => Except.noConfusion hc)

/-- Outcome of `std::process::Command::output()` for a textual command such as
`<python> --version`: the spawn itself may fail (`launchFailure`, carrying the
io error text), or the process runs to completion with an exit status and the
result of `String::from_utf8` on its captured stdout (`.error` = invalid
utf-8, with the utf-8 error text). -/
inductive RunOutcome where
  | launchFailure (msg : String)
  | completed (success : Bool) (stdoutUtf8 : Except String String)
deriving DecidableEq, Repr

/-- Rust's `str::trim`: the string with whitespace removed from both ends. -/
def rustTrim (s : String) : String :=
  String.mk (((s.data.dropWhile Char.isWhitespace).reverse.dropWhile Char.isWhitespace).reverse)

/-- Mirrors `get_python_version` (python_manager.rs, lines 233-246), as a
function of the outcome of running `<python_path> --version`. -/
def get_python_version (r : RunOutcome) : Except String String :=
  match r with
  | .launchFailure e => .error ("Failed to get Python version: " ++ e)
  | .completed true (.ok s) => .ok (rustTrim s)
  | .completed true (.error e) => .error ("Failed to parse version output: " ++ e)
  | .completed false _ => .error "Failed to execute Python version command"

/-- JSON values, mirroring `serde_json::Value`. -/
inductive Json where
  | null
  | bool (b : Bool)
  | num (q : ℚ)
  | str (s : String)
  | arr (items : List Json)
  | obj (entries : List (String × Json))

/-- Deserializing a JSON object's entries into `HashMap<String, bool>`:
succeeds only when every value is a JSON boolean (serde rejects any other
value type for `bool`). -/
def jsonBoolEntries : List (String × Json) → Option (List (String × Bool))
  | [] => some []
  | (k, .bool b) :: rest => (jsonBoolEntries rest).map (fun r => (k, b) :: r)
  | _ => none

/-- `serde_json::from_str::<HashMap<String, bool>>` applied to an
already-parsed JSON value: requires a top-level object whose values are all
booleans. -/
def jsonToBoolMap : Json → Option (List (String × Bool))
  | .obj entries => jsonBoolEntries entries
  | _ => none

/-- `HashMap::get`: the value bound to a key. With serde's map
deserialization, a repeated key keeps its last binding. -/
def hashGet (m : List (String × Bool)) (k : String) : Option Bool :=
  ((m.filter (fun kv => kv.1 = k)).getLast?).map (fun kv => kv.2)

/-- Outcome of running the library-diagnostic script
(`Command::new(python_path).arg("-c").arg(check_script).output()`): the spawn
may fail, or the process exits with a status and `stdoutJson` is the result of
`String::from_utf8` plus JSON parsing of its stdout (`none` = invalid utf-8 or
not JSON; `some j` = parsed JSON value `j`). -/
inductive ScriptOutcome where
  | launchFailure
  | completed (success : Bool) (stdoutJson : Option Json)

/-- The foundational ("core") libraries hard-coded in
`check_medical_libraries` (python_manager.rs, line 274). -/
def core_libs : List String := ["pandas", "numpy", "scipy"]

/-- Mirrors `check_medical_libraries` (python_manager.rs, lines 248-282):
true only when the script ran, exited successfully, printed a JSON object of
booleans, and every core library maps to true; every failure mode yields
false. -/
def check_medical_libraries (r : ScriptOutcome) : Bool :=
  match r with
  | .launchFailure => false
  | .completed success out =>
    if success then
      match out with
      | some j =>
        match jsonToBoolMap j with
        | some libs => core_libs.all (fun lib => (hashGet libs lib).getD false)
        | none => false
      | none => false
    else false

/-- Environment for `check_python_status`: the results of the two filesystem
probes (`check_bundled_python`, `check_system_python`) and, per located path,
the outcomes of the version command and of the diagnostic script. -/
structure PyEnv where
  bundled : Option String
  system : Option String
  versionRun : String → RunOutcome
  medicalRun : String → ScriptOutcome

/-- Mirrors `check_python_status` (python_manager.rs, lines 31-73): bundled
probe first, then system probe, then the not-found status; `?` on
`get_python_version` is the `.error` propagation. -/
def check_python_status (env : PyEnv) : Except String PythonStatus :=
  match env.bundled with
  | some bundled_path =>
    match get_python_version (env.versionRun bundled_path) with
    | .error e => .error e
    | .ok version =>
      .ok { is_available := true
            python_path := some bundled_path
            version := some version
            source := "bundled"
            medical_libraries_available := check_medical_libraries (env.medicalRun bundled_path)
            setup_required := !check_medical_libraries (env.medicalRun bundled_path) }
  | none =>
    match env.system with
    | some system_path =>
      match get_python_version (env.versionRun system_path) with
      | .error e => .error e
      | .ok version =>
        .ok { is_available := true
              python_path := some system_path
              version := some version
              source := "system"
              medical_libraries_available := check_medical_libraries (env.medicalRun system_path)
              setup_required := false }
    | none =>
      .ok { is_available := false
            python_path := none
            version := none
            source := "none"
            medical_libraries_available := false
            setup_required := true }

/-- A diagnostic-script output reporting all seven probed libraries present
(core libraries included). -/
def coreReadyJson : Json :=
  .obj [("pandas", .bool true), ("numpy", .bool true), ("scipy", .bool true),
        ("matplotlib", .bool true), ("seaborn", .bool true),
        ("statsmodels", .bool true), ("sklearn", .bool true)]

/-- A diagnostic-script output reporting every probed library absent. -/
def noLibsJson : Json :=
  .obj [("pandas", .bool false), ("numpy", .bool false), ("scipy", .bool false),
        ("matplotlib", .bool false), ("seaborn", .bool false),
        ("statsmodels", .bool false), ("sklearn", .bool false)]

/-- Environment with no bundled runtime, a system runtime at `python` whose
version query succeeds but whose diagnostic script reports no libraries. -/
def envSysNoLibs : PyEnv :=
  { bundled := none
    system := some "python"
    versionRun := fun _ => .completed true (.ok "Python 3.9.0")
    medicalRun := fun _ => .completed true (some noLibsJson) }

/-- Environment with a bundled runtime that lacks the core libraries and a
system runtime that has all of them; both version queries succeed. -/
def envBundledDegraded : PyEnv :=
  { bundled := some "resources/python/python.exe"
    system := some "python"
    versionRun := fun _ => .completed true (.ok "Python 3.11.7")
    medicalRun := fun p =>
      if p = "python" then .completed true (some coreReadyJson)
      else .completed true (some noLibsJson) }

/-- Environment with a bundled runtime whose version command cannot even be
spawned. -/
def envVersionLaunchFail : PyEnv :=
  { bundled := some "resources/python/python.exe"
    system := none
    versionRun := fun _ => .launchFailure "No such file or directory (os error 2)"
    medicalRun := fun _ => .completed true (some coreReadyJson) }

/-- The status `check_python_status` computes under `envSysNoLibs`. -/
def sysNoLibsStatus : PythonStatus :=
  { is_available := true
    python_path := some "python"
    version := some "Python 3.9.0"
    source := "system"
    medical_libraries_available := false
    setup_required := false }

/-- Mirrors the `PythonSetupProgress` struct (python_manager.rs, lines
21-28). -/
structure PythonSetupProgress where
  step : String
  progress : Nat
  message : String
  completed : Bool
  error : Option String
deriving DecidableEq, Repr

/-- The `send_progress` closure (python_manager.rs, lines 80-88): every
in-flight progress event has `completed := false` and `error := none`. -/
def sendProgress (step : String) (progress : Nat) (message : String) : PythonSetupProgress :=
  { step := step, progress := progress, message := message, completed := false, error := none }

def evInit : PythonSetupProgress :=
  sendProgress "initializing" 0 "Initializing Python setup..."

def evDownloading : PythonSetupProgress :=
  sendProgress "downloading" 10 "Downloading Python 3.11.7 embedded..."

def evExtracting : PythonSetupProgress :=
  sendProgress "extracting" 30 "Extracting Python runtime..."

def evConfiguring : PythonSetupProgress :=
  sendProgress "configuring" 50 "Configuring Python environment..."

def evInstallingPip : PythonSetupProgress :=
  sendProgress "installing_pip" 60 "Installing package manager..."

def evInstallingLibraries : PythonSetupProgress :=
  sendProgress "installing_libraries" 70 "Installing medical analysis libraries..."

def evVerifying : PythonSetupProgress :=
  sendProgress "verifying" 90 "Verifying installation..."

def evCompleted : PythonSetupProgress :=
  sendProgress "completed" 100 "Python setup completed successfully!"

/-- The explicit completion signal (python_manager.rs, lines 149-155), the
only event emitted with `completed := true`. -/
def evTerminal : PythonSetupProgress :=
  { step := "completed", progress := 100, message := "Medical Python environment ready!",
    completed := true, error := none }

/-- Outcome of a `Command::output()` call whose stderr is reported on
failure (pip bootstrap, per-library pip install). -/
inductive ExecOutcome where
  | launchFailure (msg : String)
  | completed (success : Bool) (stderrLossy : String)
deriving DecidableEq, Repr

/-- Mirrors `install_pip` (python_manager.rs, lines 345-369) over the
outcomes of downloading `get-pip.py` and running it. -/
def install_pip (downloadGetPip : Except String Unit) (run : ExecOutcome) : Except String Unit :=
  match downloadGetPip with
  | .error e => .error ("Failed to download get-pip.py: " ++ e)
  | .ok _ =>
    match run with
    | .launchFailure e => .error ("Failed to install pip: " ++ e)
    | .completed true _ => .ok ()
    | .completed false stderr => .error ("Pip installation failed: " ++ stderr)

/-- The pinned required libraries (python_manager.rs, lines 374-383). -/
def required_libs : List String :=
  ["pandas==2.1.4", "numpy==1.24.4", "scipy==1.11.4", "matplotlib==3.8.2",
   "seaborn==0.13.0", "statsmodels==0.14.1", "scikit-learn==1.3.2", "plotly==5.18.0"]

/-- The optional libraries whose install outcomes are fully ignored
(python_manager.rs, lines 398-404). -/
def optional_libs : List String := ["pingouin", "lifelines"]

/-- The loop over required libraries (python_manager.rs, lines 385-395): a
launch failure aborts with an error, while a completed-but-failed install is
only logged and the loop continues. -/
def installRequiredLoop (runs : String → ExecOutcome) : List String → Except String Unit
  | [] => .ok ()
  | lib :: rest =>
    match runs lib with
    | .launchFailure e => .error ("Failed to install " ++ lib ++ ": " ++ e)
    | .completed _ _ => installRequiredLoop runs rest

/-- Mirrors `install_medical_libraries` (python_manager.rs, lines 371-407):
the required loop, then the optional libraries, whose outcomes (even launch
failures) are discarded and so do not appear in the result. -/
def install_medical_libraries (runs : String → ExecOutcome) : Except String Unit :=
  installRequiredLoop runs required_libs

/-- Environment for `setup_embedded_python`: the outcome each effectful call
of the pipeline would produce. -/
structure SetupEnv where
  appResourcesDir : Except String String
  pythonDirExists : Bool
  createDir : Except String Unit
  downloadPython : Except String Unit
  extractOutcome : Except String Unit
  configureOutcome : Except String Unit
  downloadGetPip : Except String Unit
  pipRun : ExecOutcome
  libRuns : String → ExecOutcome
  versionRun : RunOutcome
  medicalRun : ScriptOutcome

/-- Mirrors `setup_embedded_python` (python_manager.rs, lines 76-165),
returning the list of emitted `python_setup_progress` events alongside the
command's result; each `?` propagation is a `.error` branch that stops the
pipeline with the events emitted so far. -/
def setup_embedded_python (env : SetupEnv) : List PythonSetupProgress × Except String PythonStatus :=
  match env.appResourcesDir with
  | .error e => ([evInit], .error e)
  | .ok app_dir =>
    match (if env.pythonDirExists then Except.ok ()
           else Except.mapError (fun e => "Failed to create Python directory: " ++ e) env.createDir) with
    | .error e => ([evInit], .error e)
    | .ok _ =>
      match env.downloadPython with
      | .error e => ([evInit, evDownloading], .error ("Failed to download Python: " ++ e))
      | .ok _ =>
        match env.extractOutcome with
        | .error e => ([evInit, evDownloading, evExtracting], .error ("Failed to extract Python: " ++ e))
        | .ok _ =>
          match env.configureOutcome with
          | .error e => ([evInit, evDownloading, evExtracting, evConfiguring], .error e)
          | .ok _ =>
            match install_pip env.downloadGetPip env.pipRun with
            | .error e =>
              ([evInit, evDownloading, evExtracting, evConfiguring, evInstallingPip], .error e)
            | .ok _ =>
              match install_medical_libraries env.libRuns with
              | .error e =>
                ([evInit, evDownloading, evExtracting, evConfiguring, evInstallingPip,
                  evInstallingLibraries], .error e)
              | .ok _ =>
                match get_python_version env.versionRun with
                | .error e =>
                  ([evInit, evDownloading, evExtracting, evConfiguring, evInstallingPip,
                    evInstallingLibraries, evVerifying], .error e)
                | .ok version =>
                  if check_medical_libraries env.medicalRun then
                    ([evInit, evDownloading, evExtracting, evConfiguring, evInstallingPip,
                      evInstallingLibraries, evVerifying, evCompleted, evTerminal],
                     .ok { is_available := true
                           python_path := some (app_dir ++ "/python/python.exe")
                           version := some version
                           source := "bundled"
                           medical_libraries_available := true
                           setup_required := false })
                  else
                    ([evInit, evDownloading, evExtracting, evConfiguring, evInstallingPip,
                      evInstallingLibraries, evVerifying],
                     .error "Medical libraries verification failed")

/-- The step values the pipeline can emit, in emission order; on success the
full sequence is emitted, `completed` appearing twice (the `send_progress`
call and the explicit completion signal). -/
def emitted_step_catalog : List String :=
  ["initializing", "downloading", "extracting", "configuring", "installing_pip",
   "installing_libraries", "verifying", "completed", "completed"]

/-- The step catalog as the spec words it. -/
def spec_step_catalog : List String :=
  ["initializing", "downloading", "extracting", "configuring",
   "installing_package_manager", "installing_required_libraries",
   "installing_optional_libraries", "verifying", "completed"]

/-- Pipeline environment in which every effectful call succeeds and the
verification script reports all libraries present. -/
def envSetupAllOk : SetupEnv :=
  { appResourcesDir := .ok "C:/app"
    pythonDirExists := false
    createDir := .ok ()
    downloadPython := .ok ()
    extractOutcome := .ok ()
    configureOutcome := .ok ()
    downloadGetPip := .ok ()
    pipRun := .completed true ""
    libRuns := fun _ => .completed true ""
    versionRun := .completed true (.ok "Python 3.11.7")
    medicalRun := .completed true (some coreReadyJson) }

/-- Pipeline environment whose runtime-archive download fails. -/
def envSetupDownloadFail : SetupEnv :=
  { envSetupAllOk with downloadPython := .error "connection reset by peer" }

/-- Pipeline environment in which every step succeeds but the verification
version command exits with a failure status while the diagnostic script
reports all libraries present. -/
def envSetupVersionFail : SetupEnv :=
  { envSetupAllOk with versionRun := .completed false (.ok "") }

/-- Pipeline environment in which every step succeeds but the verification
script reports the core libraries absent. -/
def envSetupNoCore : SetupEnv :=
  { envSetupAllOk with medicalRun := .completed true (some noLibsJson) }

/-- The status `setup_embedded_python` returns under `envSetupAllOk`. -/
def setupOkStatus : PythonStatus :=
  { is_available := true
    python_path := some "C:/app/python/python.exe"
    version := some "Python 3.11.7"
    source := "bundled"
    medical_libraries_available := true
    setup_required := false }

/-- Mirrors the `HardwareInfo` struct (ollama.rs, lines 11-20); memory sizes
are reals in the code (`f64`), modelled as rationals since they are only ever
compared against the integer thresholds 8 and 6. -/
structure HardwareInfo where
  total_memory_gb : ℚ
  available_memory_gb : ℚ
  cpu_count : Nat
  recommended_model : String
  can_run_7b : Bool
  can_run_mini : Bool
  os : String
deriving DecidableEq, Repr

/-- Mirrors the `ModelInfo` struct (ollama.rs, lines 22-29). -/
structure ModelInfo where
  name : String
  size_gb : ℚ
  description : String
  recommended_ram_gb : ℚ
  is_medical : Bool
deriving DecidableEq, Repr

/-- Mirrors `get_available_models` (ollama.rs, lines 47-71). -/
def get_available_models : List ModelInfo :=
  [{ name := "tinyllama", size_gb := 11/10,
     description := "TinyLlama 1.1B - Fast and lightweight model for basic analysis",
     recommended_ram_gb := 4, is_medical := false },
   { name := "phi3:mini", size_gb := 22/10,
     description := "Phi-3 Mini - Balanced performance for general analysis",
     recommended_ram_gb := 6, is_medical := false },
   { name := "biomistral:7b", size_gb := 41/10,
     description := "BioMistral 7B - Specialized medical research model",
     recommended_ram_gb := 8, is_medical := true }]

/-- Mirrors `get_hardware_info` (ollama.rs, lines 89-128) as a function of
the measured memory values, cpu count and OS name. -/
def get_hardware_info (total_memory available_memory : ℚ) (cpu_count : Nat)
    (os : String) : HardwareInfo :=
  { total_memory_gb := total_memory
    available_memory_gb := available_memory
    cpu_count := cpu_count
    recommended_model :=
      if 8 ≤ total_memory then "biomistral:7b"
      else if 6 ≤ total_memory then "phi3:mini"
      else "tinyllama"
    can_run_7b := decide (8 ≤ total_memory)
    can_run_mini := decide (6 ≤ total_memory)
    os := os }

/-- Size order of the model catalog: tinyllama < phi3:mini < biomistral:7b. -/
def modelRank (m : String) : Nat :=
  if m = "biomistral:7b" then 2 else if m = "phi3:mini" then 1 else 0

/-- Outcome of an HTTP GET against the service's status endpoint: a response
with its status code, a transport-level error, or expiry of the surrounding
timeout. -/
inductive HttpOutcome where
  | response (status : Nat)
  | netError (msg : String)
  | timeout
deriving DecidableEq, Repr

/-- `reqwest::StatusCode::is_success`: status in 200..=299. -/
def status_is_success (st : Nat) : Bool := decide (200 ≤ st ∧ st < 300)

/-- The timeout, in seconds, wrapped around the status request
(ollama.rs, line 134). -/
def ollama_status_timeout_secs : Nat := 5

/-- Mirrors `check_ollama_status` (ollama.rs, lines 130-145): every branch
returns `Ok`, true exactly on a 2xx response. -/
def check_ollama_status (o : HttpOutcome) : Except String Bool :=
  match o with
  | .response st => .ok (status_is_success st)
  | .netError _ => .ok false
  | .timeout => .ok false

/-- Environment for `start_ollama`: the outcome of the initial health check,
of resolving the bundled binary path, and — per candidate path — of the spawn
and of the post-grace-period health re-check. -/
structure StartEnv where
  initialHealth : HttpOutcome
  bundledPath : Except String String
  spawnOutcome : String → Except String Unit
  healthAfter : String → HttpOutcome

/-- `check_ollama_status().await.unwrap_or(false)` (ollama.rs, lines 150 and
179). -/
def check_unwrap_or_false (o : HttpOutcome) : Bool :=
  match check_ollama_status o with
  | .ok b => b
  | .error _ => false

/-- The candidate loop of `start_ollama` (ollama.rs, lines 162-196), also
returning the list of paths a spawn was attempted for: a failed path
resolution only updates `last_error`; a spawn failure records the path and
the spawn error; a successful spawn sleeps the grace period, re-checks health
once and either returns success or records the not-responding error. -/
def start_ollama_go (env : StartEnv) :
    List (Except String String) → String → Except String String × List String
  | [], lastError => (.error ("Failed to start Ollama. Last error: " ++ lastError), [])
  | cand :: rest, _ =>
    match cand with
    | .error e => start_ollama_go env rest e
    | .ok path =>
      match env.spawnOutcome path with
      | .error e =>
        let r := start_ollama_go env rest ("Failed to start Ollama at \"" ++ path ++ "\": " ++ e)
        (r.1, path :: r.2)
      | .ok _ =>
        if check_unwrap_or_false (env.healthAfter path) then
          (.ok "Ollama started successfully", [path])
        else
          let r := start_ollama_go env rest "Ollama process started but service is not responding"
          (r.1, path :: r.2)

/-- Mirrors `start_ollama` (ollama.rs, lines 147-199): an early return when
already healthy, then the candidate loop over the bundled path and the system
command name. -/
def start_ollama (env : StartEnv) : Except String String × List String :=
  if check_unwrap_or_false env.initialHealth then
    (.ok "Ollama is already running", [])
  else
    start_ollama_go env [env.bundledPath, .ok "ollama"] ""

/-- Environment in which the initial health check already reports the
service healthy. -/
def envStartHealthy : StartEnv :=
  { initialHealth := .response 200
    bundledPath := .ok "/resources/ollama/ollama"
    spawnOutcome := fun _ => .ok ()
    healthAfter := fun _ => .response 200 }

/-- Outcome of the GET against `/api/tags` for the model listing: a response
carries its status code and the result of decoding the body as JSON
(`.error` = network/decode failure inside `response.json()`). -/
inductive FetchOutcome where
  | response (status : Nat) (body : Except String Json)
  | netError (msg : String)
  | timeout

/-- `serde_json::Value` indexing (`data["models"]`): the value bound to the
key in an object, `Null` on a missing key or a non-object. -/
def jsonIndex (j : Json) (key : String) : Json :=
  match j with
  | .obj entries =>
    match entries.find? (fun kv => kv.1 == key) with
    | some kv => kv.2
    | none => .null
  | _ => .null

/-- `Value::as_array`. -/
def Json.asArray : Json → Option (List Json)
  | .arr items => some items
  | _ => none

/-- `Value::as_str`. -/
def Json.asStr : Json → Option String
  | .str s => some s
  | _ => none

/-- Mirrors `list_installed_models` (ollama.rs, lines 272-303):
`data["models"].as_array()` mapped through a `filter_map` over each entry's
string `"name"` field, with `unwrap_or_default` giving `[]` when `models` is
absent or not an array; non-2xx status, JSON decode failure, network error
and timeout are the only error cases. -/
def list_installed_models (o : FetchOutcome) : Except String (List String) :=
  match o with
  | .response st body =>
    if status_is_success st then
      match body with
      | .ok data =>
        .ok ((((jsonIndex data "models").asArray).map
          (fun ms => ms.filterMap (fun m => (jsonIndex m "name").asStr))).getD [])
      | .error e => .error ("Failed to parse models list: " ++ e)
    else .error ("Failed to get models list: " ++ toString st)
  | .netError e => .error ("Network error: " ++ e)
  | .timeout => .error "Request timeout"

/-- A 2xx body without a `models` key. -/
def modelsJsonMissing : Json := .obj [("status", .str "ok")]

/-- The entries of a `models` array in which only the first entry has a
string `name` field. -/
def mixedModelEntries : List Json :=
  [.obj [("name", .str "tinyllama")],
   .obj [("size", .num 3)],
   .obj [("name", .bool true)],
   .str "x"]

/-- A 2xx body whose `models` array mixes well-formed and malformed
entries. -/
def modelsJsonMixed : Json := .obj [("models", .arr mixedModelEntries)]

/-- Claim C1, as stated in the spec: for every status returned by
`check_python_status`, `setup_required` is true iff `is_available` is false or
the runtime is available but the foundational-libraries flag is false — this
fails at `envSysNoLibs`, where the system runtime lacks the core libraries yet
`setup_required` is false. -/
theorem c1_counterexample :
    ¬ (∀ (env : PyEnv) (s : PythonStatus), check_python_status env = .ok s →
        (s.setup_required = true ↔
          (s.is_available = false ∨
            (s.is_available = true ∧ s.medical_libraries_available = false)))) := by
  intro h
  have hs := h envSysNoLibs sysNoLibsStatus (by decide)
  simp [sysNoLibsStatus] at hs

/-- Claim C1, corrected: the stated invariant holds for the bundled and none
origins, but for the system origin `setup_required` is hard-coded to false
(with `is_available` true), even when the foundational-libraries flag is
false. -/
theorem c1_amended (env : PyEnv) (s : PythonStatus)
    (h : check_python_status env = .ok s) :
    (s.source = "system" → s.is_available = true ∧ s.setup_required = false)
  ∧ (s.source ≠ "system" →
      (s.setup_required = true ↔
        (s.is_available = false ∨
          (s.is_available = true ∧ s.medical_libraries_available = false)))) := by
  unfold check_python_status at h
  split at h
  · split at h
    · exact absurd h (by simp)
    · cases Except.ok.inj h
      refine ⟨by simp, fun _ => ?_⟩
      cases check_medical_libraries (env.medicalRun _) <;> simp
  · split at h
    · split at h
      · exact absurd h (by simp)
      · cases Except.ok.inj h
        exact ⟨fun _ => ⟨rfl, rfl⟩, fun hne => absurd rfl hne⟩
    · cases Except.ok.inj h
      refine ⟨by simp, fun _ => by simp⟩

/-- Instantiation of `c1_amended` at the concrete environment `envSysNoLibs`. -/
theorem c1_amended_witness :
    check_python_status envSysNoLibs = .ok sysNoLibsStatus
  ∧ (sysNoLibsStatus.source = "system" →
      sysNoLibsStatus.is_available = true ∧ sysNoLibsStatus.setup_required = false) :=
  ⟨by decide, (c1_amended envSysNoLibs sysNoLibsStatus (by decide)).1⟩

/-- Claim C2, as stated in the spec: the status query stops at the first
origin that is found AND core-ready, so a found-but-not-core-ready bundled
runtime should not be the selected result — this fails at
`envBundledDegraded`, where the bundled runtime lacks the core libraries, the
system runtime has them all, and yet the result reports the bundled origin. -/
theorem c2_counterexample :
    check_medical_libraries (envBundledDegraded.medicalRun "resources/python/python.exe") = false
  ∧ check_medical_libraries (envBundledDegraded.medicalRun "python") = true
  ∧ check_python_status envBundledDegraded =
      .ok { is_available := true
            python_path := some "resources/python/python.exe"
            version := some "Python 3.11.7"
            source := "bundled"
            medical_libraries_available := false
            setup_required := true } := by
  refine ⟨by decide, by decide, by decide⟩

/-- Claim C2, corrected: the status query enumerates origins in preference
order (bundled, then system) but stops at the first origin where a runtime is
found at all (with a successful version query), regardless of `core_ready`; a
found-but-not-core-ready bundled runtime is returned as the result with
`setup_required = true`, and the system origin is never consulted. -/
theorem c2_amended (env : PyEnv) :
    (∀ p v, env.bundled = some p → get_python_version (env.versionRun p) = .ok v →
      check_python_status env =
        .ok { is_available := true
              python_path := some p
              version := some v
              source := "bundled"
              medical_libraries_available := check_medical_libraries (env.medicalRun p)
              setup_required := !check_medical_libraries (env.medicalRun p) })
  ∧ (∀ p v, env.bundled = none → env.system = some p →
      get_python_version (env.versionRun p) = .ok v →
      check_python_status env =
        .ok { is_available := true
              python_path := some p
              version := some v
              source := "system"
              medical_libraries_available := check_medical_libraries (env.medicalRun p)
              setup_required := false })
  ∧ (env.bundled = none → env.system = none →
      check_python_status env =
        .ok { is_available := false
              python_path := none
              version := none
              source := "none"
              medical_libraries_available := false
              setup_required := true }) := by
  refine ⟨?_, ?_, ?_⟩
  · intro p v hb hv
    unfold check_python_status
    rw [hb]
    dsimp only
    rw [hv]
  · intro p v hb hs hv
    unfold check_python_status
    rw [hb]
    dsimp only
    rw [hs]
    dsimp only
    rw [hv]
  · intro hb hs
    unfold check_python_status
    rw [hb]
    dsimp only
    rw [hs]

/-- Instantiation of `c2_amended` at the concrete environment
`envBundledDegraded`: the bundled runtime is found, its version query
succeeds, and the result reports the bundled origin with
`setup_required = true`. -/
theorem c2_amended_witness :
    check_python_status envBundledDegraded =
      .ok { is_available := true
            python_path := some "resources/python/python.exe"
            version := some "Python 3.11.7"
            source := "bundled"
            medical_libraries_available :=
              check_medical_libraries (envBundledDegraded.medicalRun "resources/python/python.exe")
            setup_required :=
              !check_medical_libraries (envBundledDegraded.medicalRun "resources/python/python.exe") } :=
  (c2_amended envBundledDegraded).1 "resources/python/python.exe" "Python 3.11.7" rfl (by decide)

/-- Claim C6, as stated in the spec: discovery and inspection failures never
raise from the status query, including a located runtime whose version query
fails — this fails at `envVersionLaunchFail`, where the bundled runtime is
located but its version command cannot be spawned and `check_python_status`
returns an error. -/
theorem c6_counterexample :
    check_python_status envVersionLaunchFail =
      .error "Failed to get Python version: No such file or directory (os error 2)" := by
  decide

/-- Claim C6, corrected: a missing runtime folds into `available = false`
rather than an error, and diagnostic-script failures (launch failure, non-zero
exit, malformed output) fold into a false foundational-libraries flag; but a
located runtime whose version query fails makes `check_python_status`
propagate that error. -/
theorem c6_amended (env : PyEnv) :
    (env.bundled = none → env.system = none →
      check_python_status env =
        .ok { is_available := false
              python_path := none
              version := none
              source := "none"
              medical_libraries_available := false
              setup_required := true })
  ∧ (∀ p, env.bundled = some p →
      ((∃ s, check_python_status env = .ok s) ↔
        (get_python_version (env.versionRun p)).isOk = true))
  ∧ (∀ p e, env.bundled = some p → get_python_version (env.versionRun p) = .error e →
      check_python_status env = .error e)
  ∧ check_medical_libraries .launchFailure = false
  ∧ (∀ j, check_medical_libraries (.completed false j) = false)
  ∧ check_medical_libraries (.completed true none) = false := by
  refine ⟨?_, ?_, ?_, rfl, fun j => rfl, rfl⟩
  · intro hb hs
    unfold check_python_status
    rw [hb]
    dsimp only
    rw [hs]
  · intro p hb
    unfold check_python_status
    rw [hb]
    dsimp only
    cases hv : get_python_version (env.versionRun p) with
    | error e => simp [Except.isOk, Except.toBool]
    | ok v => simp [Except.isOk, Except.toBool]
  · intro p e hb hv
    unfold check_python_status
    rw [hb]
    dsimp only
    rw [hv]

/-- Instantiation of `c6_amended` at the concrete environment
`envVersionLaunchFail`: the bundled runtime is located, its version query
fails, and the status query propagates that error. -/
theorem c6_amended_witness :
    check_python_status envVersionLaunchFail =
      .error "Failed to get Python version: No such file or directory (os error 2)" :=
  (c6_amended envVersionLaunchFail).2.2.1 "resources/python/python.exe"
    "Failed to get Python version: No such file or directory (os error 2)" rfl (by decide)

theorem catalog_take_extend (l : List String) (n : Nat)
    (h : l = emitted_step_catalog.take n) :
    ∃ t, l ++ t = emitted_step_catalog :=
  ⟨emitted_step_catalog.drop n, by rw [h]; exact List.take_append_drop n emitted_step_catalog⟩

/-- Claim C3, as stated in the spec: every pipeline run ends with exactly one
terminal event, carrying the error on a fatal failure — this fails at
`envSetupDownloadFail`, whose run fails at the download step yet emits no
event with `completed = true` and no event with a populated `error`. -/
theorem c3_counterexample :
    (setup_embedded_python envSetupDownloadFail).2 =
      .error "Failed to download Python: connection reset by peer"
  ∧ ∀ ev ∈ (setup_embedded_python envSetupDownloadFail).1,
      ev.completed = false ∧ ev.error = none := by decide

/-- Claim C3, corrected: on full success exactly one terminal event
(`completed = true`, progress 100, no error) is emitted, as the last event; on
any fatal failure no terminal event is emitted at all — the failure surfaces
only as the command's `Err` return value — and the `error` field is `none` in
every emitted event. -/
theorem c3_amended (env : SetupEnv) :
    (∀ ev ∈ (setup_embedded_python env).1, ev.error = none)
  ∧ (∀ s, (setup_embedded_python env).2 = .ok s →
      ((setup_embedded_python env).1.filter (fun ev => ev.completed)).length = 1
    ∧ (setup_embedded_python env).1.getLast? = some evTerminal)
  ∧ (∀ e, (setup_embedded_python env).2 = .error e →
      ∀ ev ∈ (setup_embedded_python env).1, ev.completed = false) := by
  unfold setup_embedded_python
  repeat' split
  all_goals dsimp only
  all_goals first
    | exact ⟨by decide, fun s hs => absurd hs (by simp), fun e he => by decide⟩
    | exact ⟨by decide, fun s hs => ⟨by decide, by decide⟩, fun e he => absurd he (by simp)⟩

/-- Instantiation of `c3_amended` at the all-success environment
`envSetupAllOk`. -/
theorem c3_amended_witness :
    ((setup_embedded_python envSetupAllOk).1.filter (fun ev => ev.completed)).length = 1
  ∧ (setup_embedded_python envSetupAllOk).1.getLast? = some evTerminal :=
  (c3_amended envSetupAllOk).2.1 setupOkStatus (by decide)

/-- Claim C4, as stated in the spec: the emitted step values follow the
catalog `initializing, downloading, extracting, configuring,
installing_package_manager, installing_required_libraries,
installing_optional_libraries, verifying, completed` truncated at the failing
step — this fails on the all-success run, whose emitted steps are named
`installing_pip` and `installing_libraries`, include no
optional-libraries step, and end with `completed` twice. -/
theorem c4_counterexample :
    (setup_embedded_python envSetupAllOk).2.isOk = true
  ∧ ((setup_embedded_python envSetupAllOk).1.map (fun ev => ev.step)) ≠ spec_step_catalog
  ∧ "installing_optional_libraries" ∉
      ((setup_embedded_python envSetupAllOk).1.map (fun ev => ev.step)) := by decide

/-- Claim C4, corrected: for every run the emitted step values are a prefix of
the fixed order `initializing, downloading, extracting, configuring,
installing_pip, installing_libraries, verifying, completed, completed` (the
pipeline has no separate optional-libraries step, and on success `completed`
is emitted twice: the progress event and the explicit completion signal);
truncation happens at the failing step, the success case emits the full
sequence, and the progress values are non-decreasing. -/
theorem c4_amended (env : SetupEnv) :
    (∃ t, ((setup_embedded_python env).1.map (fun ev => ev.step)) ++ t = emitted_step_catalog)
  ∧ List.Sorted (· ≤ ·) ((setup_embedded_python env).1.map (fun ev => ev.progress))
  ∧ (∀ s, (setup_embedded_python env).2 = .ok s →
      ((setup_embedded_python env).1.map (fun ev => ev.step)) = emitted_step_catalog) := by
  unfold setup_embedded_python
  repeat' split
  all_goals dsimp only
  all_goals first
    | exact ⟨catalog_take_extend _ 1 (by decide), by decide, fun s hs => absurd hs (by simp)⟩
    | exact ⟨catalog_take_extend _ 2 (by decide), by decide, fun s hs => absurd hs (by simp)⟩
    | exact ⟨catalog_take_extend _ 3 (by decide), by decide, fun s hs => absurd hs (by simp)⟩
    | exact ⟨catalog_take_extend _ 4 (by decide), by decide, fun s hs => absurd hs (by simp)⟩
    | exact ⟨catalog_take_extend _ 5 (by decide), by decide, fun s hs => absurd hs (by simp)⟩
    | exact ⟨catalog_take_extend _ 6 (by decide), by decide, fun s hs => absurd hs (by simp)⟩
    | exact ⟨catalog_take_extend _ 7 (by decide), by decide, fun s hs => absurd hs (by simp)⟩
    | exact ⟨catalog_take_extend _ 9 (by decide), by decide, fun s hs => by decide⟩

/-- Instantiation of `c4_amended` at the all-success environment
`envSetupAllOk`: the full step sequence is emitted. -/
theorem c4_amended_witness :
    ((setup_embedded_python envSetupAllOk).1.map (fun ev => ev.step)) = emitted_step_catalog :=
  (c4_amended envSetupAllOk).2.2 setupOkStatus (by decide)

/-- Claim C5, as stated in the spec: once the verifying step is reached, the
run succeeds iff `core_ready` holds afterwards — this fails at
`envSetupVersionFail`, where the diagnostic script reports all core libraries
present but the version command of the verifying step exits unsuccessfully,
so the run fails anyway. -/
theorem c5_counterexample :
    check_medical_libraries envSetupVersionFail.medicalRun = true
  ∧ (setup_embedded_python envSetupVersionFail).2 =
      .error "Failed to execute Python version command" := by decide

/-- Claim C5, corrected: once the verifying step is reached, the run succeeds
iff the version probe of the fresh runtime succeeds AND `core_ready` is true;
when the version probe succeeds but a foundational library is absent, the run
fails with the non-empty error message
`Medical libraries verification failed`. -/
theorem c5_amended (env : SetupEnv)
    (hv : "verifying" ∈ ((setup_embedded_python env).1.map (fun ev => ev.step))) :
    ((setup_embedded_python env).2.isOk = true ↔
      ((get_python_version env.versionRun).isOk = true
        ∧ check_medical_libraries env.medicalRun = true))
  ∧ (∀ v, get_python_version env.versionRun = .ok v →
      check_medical_libraries env.medicalRun = false →
      (setup_embedded_python env).2 = .error "Medical libraries verification failed") := by
  revert hv
  unfold setup_embedded_python
  repeat' split
  all_goals intro hv
  all_goals simp_all [evInit, evDownloading, evExtracting, evConfiguring, evInstallingPip,
    evInstallingLibraries, evVerifying, evCompleted, evTerminal, sendProgress,
    Except.isOk, Except.toBool]

/-- Instantiation of `c5_amended` at the environment `envSetupNoCore`, where
verification is reached, the version probe succeeds, and the core libraries
are absent. -/
theorem c5_amended_witness :
    (setup_embedded_python envSetupNoCore).2 = .error "Medical libraries verification failed" :=
  (c5_amended envSetupNoCore (by decide)).2 "Python 3.11.7" (by decide) (by decide)

/-- Claim C9, confirmed: the recommendation uses the fixed thresholds (8 GB
for biomistral:7b, 6 GB for phi3:mini, tinyllama otherwise),
`can_run_7b = (8 ≤ T)` and `can_run_mini = (6 ≤ T)`, the function of `T` is
deterministic and monotone in the size order of the catalog, and the 4 GB
profile yields tinyllama with both capability flags false. -/
theorem c9_confirmed :
    (∀ (T a : ℚ) (c : Nat) (o : String), 8 ≤ T →
      (get_hardware_info T a c o).recommended_model = "biomistral:7b")
  ∧ (∀ (T a : ℚ) (c : Nat) (o : String), 6 ≤ T → T < 8 →
      (get_hardware_info T a c o).recommended_model = "phi3:mini")
  ∧ (∀ (T a : ℚ) (c : Nat) (o : String), T < 6 →
      (get_hardware_info T a c o).recommended_model = "tinyllama")
  ∧ (∀ (T a : ℚ) (c : Nat) (o : String),
      (get_hardware_info T a c o).can_run_7b = true ↔ 8 ≤ T)
  ∧ (∀ (T a : ℚ) (c : Nat) (o : String),
      (get_hardware_info T a c o).can_run_mini = true ↔ 6 ≤ T)
  ∧ (∀ (T1 T2 a1 a2 : ℚ) (c1 c2 : Nat) (o1 o2 : String), T1 ≤ T2 →
      modelRank (get_hardware_info T1 a1 c1 o1).recommended_model ≤
        modelRank (get_hardware_info T2 a2 c2 o2).recommended_model)
  ∧ ((get_hardware_info 4 2 4 "Windows").recommended_model = "tinyllama"
    ∧ (get_hardware_info 4 2 4 "Windows").can_run_7b = false
    ∧ (get_hardware_info 4 2 4 "Windows").can_run_mini = false) := by
  refine ⟨?_, ?_, ?_, ?_, ?_, ?_, by decide, by decide, by decide⟩
  · intro T a c o h8
    simp [get_hardware_info, if_pos h8]
  · intro T a c o h6 h8
    simp [get_hardware_info, if_neg (not_le.mpr h8), if_pos h6]
  · intro T a c o h6
    have h8 : ¬ 8 ≤ T := by intro hc; linarith
    simp [get_hardware_info, if_neg h8, if_neg (not_le.mpr h6)]
  · intro T a c o
    simp [get_hardware_info]
  · intro T a c o
    simp [get_hardware_info]
  · intro T1 T2 a1 a2 c1 c2 o1 o2 hle
    by_cases h8 : 8 ≤ T1
    · have h8' : 8 ≤ T2 := le_trans h8 hle
      simp [get_hardware_info, if_pos h8, if_pos h8']
    · by_cases h8' : 8 ≤ T2
      · simp only [get_hardware_info, if_pos h8', if_neg h8]
        split <;> simp [modelRank]
      · by_cases h6 : 6 ≤ T1
        · have h6' : 6 ≤ T2 := le_trans h6 hle
          simp [get_hardware_info, if_neg h8, if_neg h8', if_pos h6, if_pos h6']
        · by_cases h6' : 6 ≤ T2
          · simp [get_hardware_info, if_neg h8, if_neg h8', if_neg h6, if_pos h6', modelRank]
          · simp [get_hardware_info, if_neg h8, if_neg h8', if_neg h6, if_neg h6']

/-- Instantiation of `c9_confirmed` at the memory values 9, 6 and 4. -/
theorem c9_confirmed_witness :
    (get_hardware_info 9 4 8 "Linux").recommended_model = "biomistral:7b"
  ∧ (get_hardware_info 6 4 8 "Linux").recommended_model = "phi3:mini"
  ∧ (get_hardware_info 4 4 8 "Linux").recommended_model = "tinyllama" :=
  ⟨c9_confirmed.1 9 4 8 "Linux" (by norm_num),
   c9_confirmed.2.1 6 4 8 "Linux" (by norm_num) (by norm_num),
   c9_confirmed.2.2.1 4 4 8 "Linux" (by norm_num)⟩

/-- Claim C7, confirmed: the health check wraps the request in a 5-second
timeout and returns `Ok` in every case — `Ok true` exactly on a 2xx response,
`Ok false` on a non-2xx response, any network error, or timeout expiry. -/
theorem c7_confirmed :
    ollama_status_timeout_secs = 5
  ∧ (∀ o, ∃ b, check_ollama_status o = .ok b)
  ∧ (∀ o, check_ollama_status o = .ok true ↔
      ∃ st, o = .response st ∧ 200 ≤ st ∧ st < 300)
  ∧ (∀ st, ¬(200 ≤ st ∧ st < 300) → check_ollama_status (.response st) = .ok false)
  ∧ (∀ e, check_ollama_status (.netError e) = .ok false)
  ∧ check_ollama_status .timeout = .ok false := by
  refine ⟨rfl, fun o => ?_, fun o => ?_, fun st h => ?_, fun e => rfl, rfl⟩
  · cases o with
    | response st => exact ⟨status_is_success st, rfl⟩
    | netError e => exact ⟨false, rfl⟩
    | timeout => exact ⟨false, rfl⟩
  · cases o with
    | response st => simp [check_ollama_status, status_is_success]
    | netError e => simp [check_ollama_status]
    | timeout => simp [check_ollama_status]
  · simp [check_ollama_status, status_is_success]
    intro h200
    exact le_of_not_lt (fun hlt => h ⟨h200, hlt⟩)

/-- Instantiation of `c7_confirmed` at a refused connection, a 500 response
and a timeout. -/
theorem c7_confirmed_witness :
    check_ollama_status (.netError "connection refused") = .ok false
  ∧ check_ollama_status (.response 500) = .ok false
  ∧ check_ollama_status .timeout = .ok false :=
  ⟨c7_confirmed.2.2.2.2.1 "connection refused",
   c7_confirmed.2.2.2.1 500 (by decide),
   c7_confirmed.2.2.2.2.2⟩

/-- Shared shape of the C8 conjunction for runs that end in success. -/
theorem c8_success_shape (env : StartEnv) (log : List String) (p : String)
    (hinit : check_unwrap_or_false env.initialHealth = false)
    (hres : start_ollama env = (.ok "Ollama started successfully", log))
    (hlast : log.getLast? = some p)
    (hsp : env.spawnOutcome p = .ok ())
    (hh : check_unwrap_or_false (env.healthAfter p) = true)
    (hsub : List.Sublist log ([env.bundledPath, Except.ok "ollama"].filterMap Except.toOption)) :
    (check_unwrap_or_false env.initialHealth = true →
      start_ollama env = (.ok "Ollama is already running", []))
  ∧ (∀ m, (start_ollama env).1 = .ok m →
      check_unwrap_or_false env.initialHealth = false →
        m = "Ollama started successfully"
      ∧ ∃ q, (start_ollama env).2.getLast? = some q
          ∧ env.spawnOutcome q = .ok ()
          ∧ check_unwrap_or_false (env.healthAfter q) = true)
  ∧ (check_unwrap_or_false env.initialHealth = false →
      List.Sublist (start_ollama env).2
        ([env.bundledPath, Except.ok "ollama"].filterMap Except.toOption))
  ∧ (∀ e, (start_ollama env).1 = .error e →
      ∃ msg, e = "Failed to start Ollama. Last error: " ++ msg)
  ∧ (∀ q, q ∈ (start_ollama env).2 → env.spawnOutcome q = .ok () →
      (start_ollama env).1 = .ok "Ollama started successfully"
      ∨ check_unwrap_or_false (env.healthAfter q) = false) := by
  refine ⟨fun ht => absurd (hinit.symm.trans ht) (by decide),
          fun m hm _ => ?_, fun _ => ?_, fun e he => ?_, fun q hq hsq => ?_⟩
  · rw [hres] at hm
    exact ⟨(Except.ok.inj hm).symm, p, by rw [hres]; exact hlast, hsp, hh⟩
  · rw [hres]
    exact hsub
  · rw [hres] at he
    exact absurd he (by simp)
  · left
    rw [hres]

/-- Shared shape of the C8 conjunction for runs that end in failure. -/
theorem c8_failure_shape (env : StartEnv) (log : List String) (msg : String)
    (hinit : check_unwrap_or_false env.initialHealth = false)
    (hres : start_ollama env = (.error ("Failed to start Ollama. Last error: " ++ msg), log))
    (hsub : List.Sublist log ([env.bundledPath, Except.ok "ollama"].filterMap Except.toOption))
    (hspawned : ∀ p ∈ log, env.spawnOutcome p = .ok () →
      check_unwrap_or_false (env.healthAfter p) = false) :
    (check_unwrap_or_false env.initialHealth = true →
      start_ollama env = (.ok "Ollama is already running", []))
  ∧ (∀ m, (start_ollama env).1 = .ok m →
      check_unwrap_or_false env.initialHealth = false →
        m = "Ollama started successfully"
      ∧ ∃ q, (start_ollama env).2.getLast? = some q
          ∧ env.spawnOutcome q = .ok ()
          ∧ check_unwrap_or_false (env.healthAfter q) = true)
  ∧ (check_unwrap_or_false env.initialHealth = false →
      List.Sublist (start_ollama env).2
        ([env.bundledPath, Except.ok "ollama"].filterMap Except.toOption))
  ∧ (∀ e, (start_ollama env).1 = .error e →
      ∃ msg2, e = "Failed to start Ollama. Last error: " ++ msg2)
  ∧ (∀ q, q ∈ (start_ollama env).2 → env.spawnOutcome q = .ok () →
      (start_ollama env).1 = .ok "Ollama started successfully"
      ∨ check_unwrap_or_false (env.healthAfter q) = false) := by
  refine ⟨fun ht => absurd (hinit.symm.trans ht) (by decide),
          fun m hm _ => ?_, fun _ => ?_, fun e he => ?_, fun q hq hsq => ?_⟩
  · rw [hres] at hm
    exact absurd hm (by simp)
  · rw [hres]
    exact hsub
  · rw [hres] at he
    exact ⟨msg, (Except.error.inj he).symm⟩
  · right
    rw [hres] at hq
    exact hspawned q hq hsq

/-- Claim C8, confirmed: if the initial health check reports healthy,
`start_ollama` spawns nothing and returns the already-running message;
otherwise it tries the bundled path then the system command name, spawning
each at most once (the spawn log is a sublist of the resolved candidates in
order), returns success exactly from the first candidate whose post-grace
re-check is healthy, and otherwise returns an error carrying the last
spawn or health failure observed. -/
theorem c8_confirmed (env : StartEnv) :
    (check_unwrap_or_false env.initialHealth = true →
      start_ollama env = (.ok "Ollama is already running", []))
  ∧ (∀ m, (start_ollama env).1 = .ok m →
      check_unwrap_or_false env.initialHealth = false →
        m = "Ollama started successfully"
      ∧ ∃ q, (start_ollama env).2.getLast? = some q
          ∧ env.spawnOutcome q = .ok ()
          ∧ check_unwrap_or_false (env.healthAfter q) = true)
  ∧ (check_unwrap_or_false env.initialHealth = false →
      List.Sublist (start_ollama env).2
        ([env.bundledPath, Except.ok "ollama"].filterMap Except.toOption))
  ∧ (∀ e, (start_ollama env).1 = .error e →
      ∃ msg, e = "Failed to start Ollama. Last error: " ++ msg)
  ∧ (∀ q, q ∈ (start_ollama env).2 → env.spawnOutcome q = .ok () →
      (start_ollama env).1 = .ok "Ollama started successfully"
      ∨ check_unwrap_or_false (env.healthAfter q) = false) := by
  by_cases hinit : check_unwrap_or_false env.initialHealth = true
  · have hres : start_ollama env = (.ok "Ollama is already running", []) := by
      simp [start_ollama, hinit]
    refine ⟨fun _ => hres, fun m hm hf => ?_, fun hf => ?_, fun e he => ?_, fun p hp _ => ?_⟩
    · rw [hinit] at hf
      exact absurd hf (by decide)
    · rw [hinit] at hf
      exact absurd hf (by decide)
    · rw [hres] at he
      exact absurd he (by simp)
    · rw [hres] at hp
      simp at hp
  · have hinit' : check_unwrap_or_false env.initialHealth = false := by
      simp at hinit
      exact hinit
    have hres0 : start_ollama env = start_ollama_go env [env.bundledPath, .ok "ollama"] "" := by
      simp [start_ollama, hinit']
    rcases hb : env.bundledPath with eb | p1
    all_goals rw [← hb]
    · rcases hs2 : env.spawnOutcome "ollama" with e2 | u2
      · refine c8_failure_shape env ["ollama"]
          ("Failed to start Ollama at \"" ++ "ollama" ++ "\": " ++ e2) hinit' ?_ ?_ ?_
        · rw [hres0, hb]
          simp [start_ollama_go, hs2]
        · rw [hb]
          exact List.Sublist.refl _
        · intro p hp hsp
          simp at hp
          subst hp
          rw [hs2] at hsp
          exact absurd hsp (by simp)
      · cases hh2 : check_unwrap_or_false (env.healthAfter "ollama") with
        | true =>
          refine c8_success_shape env ["ollama"] "ollama" hinit' ?_ rfl hs2 hh2 ?_
          · rw [hres0, hb]
            simp [start_ollama_go, hs2, hh2]
          · rw [hb]
            exact List.Sublist.refl _
        | false =>
          refine c8_failure_shape env ["ollama"]
            "Ollama process started but service is not responding" hinit' ?_ ?_ ?_
          · rw [hres0, hb]
            simp [start_ollama_go, hs2, hh2]
          · rw [hb]
            exact List.Sublist.refl _
          · intro p hp hsp
            simp at hp
            subst hp
            exact hh2
    · rcases hs1 : env.spawnOutcome p1 with e1 | u1
      · rcases hs2 : env.spawnOutcome "ollama" with e2 | u2
        · refine c8_failure_shape env [p1, "ollama"]
            ("Failed to start Ollama at \"" ++ "ollama" ++ "\": " ++ e2) hinit' ?_ ?_ ?_
          · rw [hres0, hb]
            simp [start_ollama_go, hs1, hs2]
          · rw [hb]
            exact List.Sublist.refl _
          · intro p hp hsp
            simp at hp
            rcases hp with rfl | rfl
            · rw [hs1] at hsp
              exact absurd hsp (by simp)
            · rw [hs2] at hsp
              exact absurd hsp (by simp)
        · cases hh2 : check_unwrap_or_false (env.healthAfter "ollama") with
          | true =>
            refine c8_success_shape env [p1, "ollama"] "ollama" hinit' ?_ rfl hs2 hh2 ?_
            · rw [hres0, hb]
              simp [start_ollama_go, hs1, hs2, hh2]
            · rw [hb]
              exact List.Sublist.refl _
          | false =>
            refine c8_failure_shape env [p1, "ollama"]
              "Ollama process started but service is not responding" hinit' ?_ ?_ ?_
            · rw [hres0, hb]
              simp [start_ollama_go, hs1, hs2, hh2]
            · rw [hb]
              exact List.Sublist.refl _
            · intro p hp hsp
              simp at hp
              rcases hp with rfl | rfl
              · rw [hs1] at hsp
                exact absurd hsp (by simp)
              · exact hh2
      · cases hh1 : check_unwrap_or_false (env.healthAfter p1) with
        | true =>
          refine c8_success_shape env [p1] p1 hinit' ?_ rfl hs1 hh1 ?_
          · rw [hres0, hb]
            simp [start_ollama_go, hs1, hh1]
          · rw [hb]
            exact List.Sublist.cons₂ _ (List.nil_sublist _)
        | false =>
          rcases hs2 : env.spawnOutcome "ollama" with e2 | u2
          · refine c8_failure_shape env [p1, "ollama"]
              ("Failed to start Ollama at \"" ++ "ollama" ++ "\": " ++ e2) hinit' ?_ ?_ ?_
            · rw [hres0, hb]
              simp [start_ollama_go, hs1, hh1, hs2]
            · rw [hb]
              exact List.Sublist.refl _
            · intro p hp hsp
              simp at hp
              rcases hp with rfl | rfl
              · exact hh1
              · rw [hs2] at hsp
                exact absurd hsp (by simp)
          · cases hh2 : check_unwrap_or_false (env.healthAfter "ollama") with
            | true =>
              refine c8_success_shape env [p1, "ollama"] "ollama" hinit' ?_ rfl hs2 hh2 ?_
              · rw [hres0, hb]
                simp [start_ollama_go, hs1, hh1, hs2, hh2]
              · rw [hb]
                exact List.Sublist.refl _
            | false =>
              refine c8_failure_shape env [p1, "ollama"]
                "Ollama process started but service is not responding" hinit' ?_ ?_ ?_
              · rw [hres0, hb]
                simp [start_ollama_go, hs1, hh1, hs2, hh2]
              · rw [hb]
                exact List.Sublist.refl _
              · intro p hp hsp
                simp at hp
                rcases hp with rfl | rfl
                · exact hh1
                · exact hh2

/-- Instantiation of `c8_confirmed` at `envStartHealthy`: no spawn happens
and the already-running message is returned. -/
theorem c8_confirmed_witness :
    start_ollama envStartHealthy = (.ok "Ollama is already running", []) :=
  (c8_confirmed envStartHealthy).1 (by decide)

/-- Claim C10, confirmed: on a 2xx response whose JSON body lacks a `models`
array the result is `Ok []`; on a 2xx response with a `models` array the
result keeps exactly the entries with a string `name` field; errors arise
only from a non-2xx status, an unparseable body, a network failure, or a
timeout. -/
theorem c10_confirmed :
    (∀ st j, status_is_success st = true → (jsonIndex j "models").asArray = none →
      list_installed_models (.response st (.ok j)) = .ok [])
  ∧ (∀ st j ms, status_is_success st = true → (jsonIndex j "models").asArray = some ms →
      list_installed_models (.response st (.ok j)) =
        .ok (ms.filterMap (fun m => (jsonIndex m "name").asStr)))
  ∧ (∀ st body, status_is_success st = false →
      list_installed_models (.response st body) =
        .error ("Failed to get models list: " ++ toString st))
  ∧ (∀ st e, status_is_success st = true →
      list_installed_models (.response st (.error e)) =
        .error ("Failed to parse models list: " ++ e))
  ∧ (∀ e, list_installed_models (.netError e) = .error ("Network error: " ++ e))
  ∧ list_installed_models .timeout = .error "Request timeout" := by
  refine ⟨fun st j hst hnone => ?_, fun st j ms hst hsome => ?_,
          fun st body hst => ?_, fun st e hst => ?_, fun e => rfl, rfl⟩
  · simp [list_installed_models, hst, hnone]
  · simp [list_installed_models, hst, hsome]
  · simp [list_installed_models, hst]
  · simp [list_installed_models, hst]

/-- Instantiation of `c10_confirmed` at a body without a `models` array and
at a body with a mixed `models` array. -/
theorem c10_confirmed_witness :
    list_installed_models (.response 200 (.ok modelsJsonMissing)) = .ok []
  ∧ list_installed_models (.response 200 (.ok modelsJsonMixed)) = .ok ["tinyllama"] :=
  ⟨c10_confirmed.1 200 modelsJsonMissing (by decide) rfl,
   c10_confirmed.2.1 200 modelsJsonMixed mixedModelEntries (by decide) rfl⟩
